import Mathlib

/-!
Shallow embedding of the PowerBI-Copilot-Bridge-Pro repository, covering:

* `src/src/visual.ts` — the fallback controller (`sendMessageWithFallback`),
  the communication-method table, and the data-context extractor
  (`processDataView`);
* `netlify/functions/storage-bridge.js` (concatenated into
  `netlify/functions/debug.js`) — the ephemeral result store;
* `netlify/functions/chat.js`, `chat-jsonp.js`, `chat-iframe.js`
  (in `debug.js`), `chat-sse.js`, `chat-pixel.js` — the backend proxies
  and their rule-based fallback generators.

Conventions of the embedding:

* JavaScript strings are Lean `String`s; `s.toLowerCase()` is
  `jsToLowerCase`, `s.includes(t)` is `strIncludes s t`,
  `s.substring(0, n)` is `jsSubstring s n`, template literals are
  `String.join` of their fragments, and the JS `x || d` default on
  strings is `jsOrDefault` / `jsOrString`.
* Machine time is a `Nat` count of milliseconds; `setTimeout(f, d)`
  scheduled at instant `t` is a pending task with fire time `t + d`.
* Asynchronous network outcomes (adapter invocations, Copilot calls)
  are oracles passed in as function arguments: an oracle value is
  the settled outcome of the corresponding promise race.
* Fallible steps return `Except` / `Option`.
-/

/-! ## JavaScript string primitives -/

/-- JS `s.toLowerCase()`, mapped characterwise (ASCII case folding). -/
def jsToLowerCase (s : String) : String := String.mk (s.data.map Char.toLower)

/-- JS `s.includes(pat)`: `pat` occurs as a contiguous substring of `s`. -/
def strIncludes (s pat : String) : Bool := decide (pat.data <:+: s.data)

/-- JS `s.substring(0, n)`, as a prefix of the character sequence. -/
def jsSubstring (s : String) (n : Nat) : String := String.mk (s.data.take n)

/-- JS `x || d` where `x` is a possibly-absent string: `undefined`/`null`
and the empty string are falsy and give `d`. -/
def jsOrString (x : Option String) (d : String) : String :=
  match x with
  | none => d
  | some s => if s = "" then d else s

/-- JS `x || d` on two strings (empty string is falsy). -/
def jsOrDefault (x d : String) : String := if x = "" then d else x

/-! ## `src/src/visual.ts` — communication methods and fallback controller -/

/-- `interface CommunicationMethod` of `visual.ts` (the `func` member is
factored out as the attempt oracle of `sendMessageWithFallback`). -/
structure CommunicationMethod where
  name : String
  priority : Nat
  enabled : Bool
deriving DecidableEq

/-- The four-method table built by `initializeCommunicationMethods` in
`visual.ts`, with the `enabled` flags as parameters: the source sets them
all `true` at construction, and the fallback controller mutates them, so
at the start of a call any combination may hold. -/
def communicationMethods (e₁ e₂ e₃ e₄ : Bool) : List CommunicationMethod :=
  [⟨"JSONP", 1, e₁⟩, ⟨"Iframe", 2, e₂⟩, ⟨"SSE", 3, e₃⟩, ⟨"Pixel", 4, e₄⟩]

/-- `initializeCommunicationMethods`: all four methods start enabled. -/
def initializeCommunicationMethods : List CommunicationMethod :=
  communicationMethods true true true true

/-- The ordering used by `.sort((a, b) => a.priority - b.priority)`. -/
def byPriority (a b : CommunicationMethod) : Prop := a.priority ≤ b.priority

instance : DecidableRel byPriority := fun a b => Nat.decLe a.priority b.priority

instance : IsTotal CommunicationMethod byPriority :=
  ⟨fun a b => Nat.le_total a.priority b.priority⟩

instance : IsTrans CommunicationMethod byPriority :=
  ⟨fun _ _ _ h₁ h₂ => Nat.le_trans h₁ h₂⟩

/-- `this.communicationMethods.filter(m => m.enabled).sort((a, b) =>
a.priority - b.priority)` at the head of `sendMessageWithFallback`. -/
def enabledMethods (ms : List CommunicationMethod) : List CommunicationMethod :=
  List.insertionSort byPriority (ms.filter (fun m => m.enabled))

/-- The hard-coded resolution defaults of the four adapters in
`visual.ts`: each resolves `data.answer || <literal>`. -/
def adapterDefaultAnswer : String → String
  | "JSONP" => "Resposta JSONP recebida"
  | "Iframe" => "Resposta iframe recebida"
  | "SSE" => "Resposta SSE recebida"
  | "Pixel" => "Resposta pixel recebida"
  | _ => ""

/-- Settled outcome of racing one adapter invocation against the 16 s
`Timeout geral` timer: either the adapter resolved (carrying the raw
`data.answer`, possibly absent/empty before the `||` default is applied),
or the race rejected with an error message (an adapter rejection or the
literal `Timeout geral`). -/
inductive RacedOutcome where
  | answered (raw : Option String)
  | failed (msg : String)

/-- One attempt of the `for (const method of enabledMethods)` loop body:
the adapter resolution applies its `data.answer || default`, a rejection
carries its message. `raced` is the outcome oracle for the given
question/context. -/
def adapterAttempt {γ : Type} (raced : CommunicationMethod → String → γ → RacedOutcome)
    (m : CommunicationMethod) (question : String) (ctx : γ) : Except String String :=
  match raced m question ctx with
  | .answered raw => .ok (jsOrString raw (adapterDefaultAnswer m.name))
  | .failed e => .error e

/-- JS interpolation `${lastError?.message}` when `lastError` is still
`null`: the template renders the literal `undefined`. -/
def lastErrorMessage : Option String → String
  | none => "undefined"
  | some e => e

/-- The attempt loop of `sendMessageWithFallback`: try each method in
order; on success return its answer; on failure remember the error and
continue; when the list is exhausted throw
`Comunicação falhou. Último erro: ${lastError?.message}`.  The second
component is the list of method names attempted, in order. -/
def runFallback (attempt : CommunicationMethod → Except String String) :
    List CommunicationMethod → Option String → Except String String × List String
  | [], lastError =>
      (Except.error ("Comunicação falhou. Último erro: " ++ lastErrorMessage lastError), [])
  | m :: rest, _ =>
      match attempt m with
      | .ok ans => (Except.ok ans, [m.name])
      | .error e =>
          let r := runFallback attempt rest (some e)
          (r.1, m.name :: r.2)

/-- `sendMessageWithFallback(question)` of `visual.ts`: filter to the
enabled methods, sort ascending by priority, and run the attempt loop
with `lastError` initially `null`. -/
def sendMessageWithFallback {γ : Type}
    (raced : CommunicationMethod → String → γ → RacedOutcome)
    (methods : List CommunicationMethod) (question : String) (ctx : γ) :
    Except String String × List String :=
  runFallback (fun m => adapterAttempt raced m question ctx) (enabledMethods methods) none

/-! ### The failure cooldown (catch branch of the loop) -/

/-- A communication method together with its pending re-enable timer, if
any (the `setTimeout(() => { method.enabled = true }, 30000)` task). -/
structure TimedMethod where
  method : CommunicationMethod
  reenableAt : Option Nat

/-- The catch branch of `sendMessageWithFallback` at instant `now`:
`method.enabled = false` and a 30 000 ms re-enable timer is armed. -/
def disableOnFailure (now : Nat) (tm : TimedMethod) : TimedMethod :=
  { method := { tm.method with enabled := false }, reenableAt := some (now + 30000) }

/-- Advance the simulated clock to instant `now`: a pending re-enable
timer whose fire time has been reached runs `method.enabled = true` and
disappears. -/
def elapseTo (now : Nat) (tm : TimedMethod) : TimedMethod :=
  match tm.reenableAt with
  | some r =>
      if r ≤ now then { method := { tm.method with enabled := true }, reenableAt := none }
      else tm
  | none => tm

/-! ## `src/src/visual.ts` — `processDataView` (data context extractor) -/

/-- The `source` metadata of one categorical/measure column
(`col.source.displayName`, `col.source.isMeasure`). -/
structure ColumnSource where
  displayName : String
  isMeasure : Bool

/-- One column of the host view: metadata plus its `values` series.
Cell values are an abstract type `α`. -/
structure CategoricalColumn (α : Type) where
  source : ColumnSource
  values : List α

/-- `dataView.categorical` with its optional `categories` and `values`
arrays. -/
structure CategoricalData (α : Type) where
  categories : Option (List (CategoricalColumn α))
  values : Option (List (CategoricalColumn α))

/-- A host data view (only the `categorical` mapping is consumed). -/
structure DataView (α : Type) where
  categorical : Option (CategoricalData α)

/-- One entry of `context.columns`: `{ name, type: 'medida' | 'categoria' }`. -/
structure ContextColumn where
  name : String
  type : String
deriving DecidableEq

/-- The `DataContext` produced by `processDataView`.  A sample row is the
ordered list of `(displayName, col.values[i])` pairs written into the row
object; an index past the end of a column's series is JS `undefined`,
hence `Option α`. -/
structure DataContext (α : Type) where
  hasData : Bool
  rowCount : Nat
  columns : List ContextColumn
  sampleData : List (List (String × Option α))

/-- The initial `context` object of `processDataView` (also its result
for a missing/empty view). -/
def emptyContext {α : Type} : DataContext α :=
  { hasData := false, rowCount := 0, columns := [], sampleData := [] }

/-- `processDataView(dataView)` of `visual.ts`: flatten
`[...categories, ...values]`, take the row count from the first column's
series, list the columns in source order, and zip up to
`Math.min(rowCount, 10)` sample rows positionally. -/
def processDataView {α : Type} (dataView : Option (DataView α)) : DataContext α :=
  match dataView with
  | none => emptyContext
  | some dv =>
      match dv.categorical with
      | none => emptyContext
      | some categorical =>
          let categories := categorical.categories.getD []
          let values := categorical.values.getD []
          let allColumns := categories ++ values
          match allColumns with
          | [] => emptyContext
          | c₀ :: _ =>
              let rowCount := c₀.values.length
              let sampleSize := min rowCount 10
              { hasData := true
                rowCount := rowCount
                columns := allColumns.map (fun col =>
                  { name := col.source.displayName
                    type := if col.source.isMeasure then "medida" else "categoria" })
                sampleData := (List.range sampleSize).map (fun i =>
                  allColumns.map (fun col => (col.source.displayName, col.values.get? i))) }

/-! ## `netlify/functions/storage-bridge.js` — ephemeral result store -/

/-- One `responses.set(sessionId, { ...data, storedAt })` entry: the
stored payload together with the `storedAt` timestamp the handler
attaches. -/
structure StoredEntry (α : Type) where
  data : α
  storedAt : Nat
deriving DecidableEq

/-- An in-memory `Map` keyed by session id, as an association list with
`Map.set` replace-or-append semantics. -/
def mapSet {α : Type} (m : List (String × α)) (k : String) (v : α) : List (String × α) :=
  if m.any (fun p => p.1 = k) then
    m.map (fun p => if p.1 = k then (k, v) else p)
  else
    m ++ [(k, v)]

/-- `Map.get`. -/
def mapGet {α : Type} (m : List (String × α)) (k : String) : Option α :=
  (m.find? (fun p => p.1 = k)).map (fun p => p.2)

/-- `Map.delete`. -/
def mapDelete {α : Type} (m : List (String × α)) (k : String) : List (String × α) :=
  m.filter (fun p => decide (p.1 ≠ k))

/-- The module-level state of `storage-bridge.js`: the `responses` map
plus the pending auto-cleanup `setTimeout` tasks (session id, fire
time). -/
structure StoreState (α : Type) where
  responses : List (String × StoredEntry α)
  timers : List (String × Nat)

/-- Acknowledgement body `{ stored: true, sessionId }` of the store
action. -/
structure StoreAck where
  stored : Bool
  sessionId : String
deriving DecidableEq

/-- Result body of the GET branch: `{ found: true, data }` or
`{ found: false, sessionId, waiting: true }`. -/
inductive FetchResult (α : Type) where
  | found (data : StoredEntry α)
  | waiting
deriving DecidableEq

/-- The POST `action === 'store'` branch of the handler at instant
`now`: insert `{ ...data, storedAt }` and schedule the 5-minute
(`5 * 60 * 1000` ms) auto-cleanup task. -/
def storageBridgeStore {α : Type} (s : StoreState α) (now : Nat) (sessionId : String)
    (data : α) : StoreState α × StoreAck :=
  ({ responses := mapSet s.responses sessionId { data := data, storedAt := now }
     timers := s.timers ++ [(sessionId, now + 5 * 60 * 1000)] },
   { stored := true, sessionId := sessionId })

/-- The GET branch of the handler: if the entry is present it is deleted
and returned (`found: true`), otherwise `{ found: false, waiting: true }`. -/
def storageBridgeFetch {α : Type} (s : StoreState α) (sessionId : String) :
    StoreState α × FetchResult α :=
  match mapGet s.responses sessionId with
  | some entry =>
      ({ s with responses := mapDelete s.responses sessionId }, .found entry)
  | none => (s, .waiting)

/-- Advance the simulated clock to instant `now`: every pending
auto-cleanup task whose fire time has been reached runs
`responses.delete(sessionId)` (in scheduling order) and disappears. -/
def fireCleanups {α : Type} (now : Nat) (s : StoreState α) : StoreState α :=
  { responses := s.timers.foldl
      (fun r p => if p.2 ≤ now then mapDelete r p.1 else r) s.responses
    timers := s.timers.filter (fun p => decide (¬ p.2 ≤ now)) }

/-! ## Shared shapes of the backend proxies -/

/-- A row object of the decoded `context` query parameter, as its ordered
`Object.entries` list; cell values are carried as their string
rendering. -/
def JsRow : Type := List (String × String)

/-- The decoded `context` parameter after `JSON.parse`: `some rows` when
the JSON was an array of row objects, `none` for any non-array value
(such as the `{}` used when parsing fails). -/
def JsCtx : Type := Option (List JsRow)

/-- JS `Array.isArray(context) && context.length > 0`. -/
def ctxHasData (context : JsCtx) : Bool :=
  match context with
  | some rows => decide (0 < rows.length)
  | none => false

/-- The row count the proxies derive from an array context (`0`
otherwise). -/
def ctxRowCount (context : JsCtx) : Nat :=
  match context with
  | some rows => rows.length
  | none => 0

/-- JS `Object.keys(context[0] || {})`: the key list of the first row. -/
def firstRowKeys (context : JsCtx) : List String :=
  match context with
  | some rows => ((rows.head?).getD []).map (fun kv => kv.1)
  | none => []

/-- JS `context[0] || {}`: the first row object, or an empty object. -/
def firstRow (context : JsCtx) : JsRow :=
  match context with
  | some rows => (rows.head?).getD []
  | none => []

/-- `JSON.stringify(row)` of a row object (cell values rendered as JSON
strings). -/
def jsonStringifyRow (row : JsRow) : String :=
  String.join ["\x7b",
    String.intercalate "," (row.map (fun kv => String.join ["\"", kv.1, "\":\"", kv.2, "\""])),
    "\x7d"]

/-- `JSON.stringify(row, null, 2)` (two-space pretty printing). -/
def jsonStringifyRowPretty (row : JsRow) : String :=
  String.join ["\x7b\n",
    String.intercalate ",\n" (row.map (fun kv => String.join ["  \"", kv.1, "\": \"", kv.2, "\""])),
    "\n\x7d"]

/-- Status code plus the `{answer, method}` fields of the payload a
proxy hands back to its transport (the JSON inside the JSONP wrapper,
the postMessage body of the iframe page, or the SSE event data). -/
structure ProxyResponse where
  statusCode : Nat
  answer : String
  method : String
deriving DecidableEq

/-! ## `netlify/functions/chat.js` — main chat proxy -/

namespace ChatJs

/-- The `questionTypes` keyword buckets of `generateIntelligentFallback`,
in object-literal insertion order (the order `Object.entries` iterates). -/
def questionTypes : List (String × List String) :=
  [("totals", ["total", "soma", "sum", "somar", "calcular"]),
   ("quantities", ["quantidade", "qtd", "quantos", "count", "número"]),
   ("sales", ["vendas", "receita", "faturamento", "revenue", "sales"]),
   ("doctors", ["médico", "doctor", "dr.", "dra.", "profissional"]),
   ("averages", ["média", "average", "mean", "médio"]),
   ("comparisons", ["comparar", "versus", "vs", "diferença", "maior", "menor"])]

/-- The bucket-detection loop of `generateIntelligentFallback`: the first
bucket one of whose terms occurs in the lower-cased question wins
(`break`), with its matching terms as `keywords`; default is
`('general', [])`. -/
def detectType (q : String) : String × List String :=
  match questionTypes.find? (fun b => b.2.any (fun t => strIncludes q t)) with
  | some b => (b.1, b.2.filter (fun t => strIncludes q t))
  | none => ("general", [])

/-- `generateDataSample(context)`: up to two sample rows, three columns
each, plus a `... e mais N registros` tail. -/
def generateDataSample (context : JsCtx) : String :=
  match context with
  | none => ""
  | some rows =>
      if rows.length = 0 then ""
      else
        String.join
          ["\n📋 **Amostra dos dados:**\n",
           String.join ((rows.take 2).enum.map (fun p =>
             String.join
               ["**Registro ", Nat.repr (p.1 + 1), ":** ",
                String.intercalate " | " ((p.2.take 3).map (fun kv =>
                  String.join [kv.1, ": ", kv.2])),
                "\n"])),
           if decide (2 < rows.length) then
             String.join ["... e mais ", Nat.repr (rows.length - 2), " registros"]
           else ""]

/-- The `case 'totals'` template. -/
def totalsAnswer (hasData : Bool) (rowCount : Nat) (keywords : List String)
    (context : JsCtx) : String :=
  String.join
    ["📊 **ANÁLISE DE TOTAIS** ",
     if hasData then
       String.join
         ["\n      \n✅ **Dados Processados:** ", Nat.repr rowCount,
          " registros\n🔍 **Palavras-chave:** ", String.intercalate ", " keywords,
          "\n📈 **Sugestão:** Use a coluna de valores numéricos para calcular totais",
          "\n🎯 **Próximo passo:** Identifique a coluna de valores e aplique SUM()\n\n",
          if hasData then generateDataSample context
          else "⚠️ Adicione dados numéricos ao visual"]
     else "⚠️ Nenhum dado disponível para cálculo de totais"]

/-- The `case 'doctors'` template. -/
def doctorsAnswer (hasData : Bool) (rowCount : Nat) (keywords : List String)
    (context : JsCtx) : String :=
  String.join
    ["👨‍⚕️ **ANÁLISE MÉDICOS** ",
     if hasData then
       String.join
         ["\n      \n✅ **Registros médicos:** ", Nat.repr rowCount,
          " encontrados\n🔍 **Filtros aplicados:** ", String.intercalate ", " keywords,
          "\n📋 **Colunas disponíveis:** ",
          if hasData then String.intercalate ", " (firstRowKeys context) else "N/A",
          "\n💡 **Insights:** Agrupe por nome do médico para ver distribuição\n\n",
          generateDataSample context]
     else "⚠️ Dados médicos não carregados no visual"]

/-- The `case 'sales'` template. -/
def salesAnswer (hasData : Bool) (rowCount : Nat) (context : JsCtx) : String :=
  String.join
    ["💰 **ANÁLISE DE VENDAS** ",
     if hasData then
       String.join
         ["\n      \n📊 **Transações:** ", Nat.repr rowCount,
          " registros de vendas\n💵 **Métricas:** Receita, quantidade, performance",
          "\n📈 **Período:** Baseado nos dados carregados",
          "\n🎯 **Recomendação:** Visualize por período ou vendedor\n\n",
          generateDataSample context]
     else "⚠️ Carregue dados de vendas no visual"]

/-- The `default` template (also reached by the `quantities`,
`averages` and `comparisons` buckets, which have no `case` arm). -/
def generalAnswer (question : String) (hasData : Bool) (rowCount : Nat)
    (context : JsCtx) : String :=
  String.join
    ["🤖 **ASSISTENTE BI ATIVO** ",
     if hasData then
       String.join
         ["\n      \n✅ **Status:** ", Nat.repr rowCount,
          " registros processados\n🔍 **Pergunta:** \"", jsSubstring question 100,
          "...\"\n📊 **Dados:** ", Nat.repr (firstRowKeys context).length,
          " colunas disponíveis\n⚡ **Modo:** Resposta rápida (otimizado para Netlify Free)\n\n",
          generateDataSample context,
          "\n\n💡 **Dica:** Seja mais específico para análises detalhadas"]
     else "⚠️ Nenhum dado carregado no visual"]

/-- `generateIntelligentFallback(question, context)` of `chat.js`. -/
def generateIntelligentFallback (question : String) (context : JsCtx) : String :=
  let q := jsToLowerCase question
  let hasData := ctxHasData context
  let rowCount := if hasData then ctxRowCount context else 0
  let dt := detectType q
  if dt.1 = "totals" then totalsAnswer hasData rowCount dt.2 context
  else if dt.1 = "doctors" then doctorsAnswer hasData rowCount dt.2 context
  else if dt.1 = "sales" then salesAnswer hasData rowCount context
  else generalAnswer question hasData rowCount context

/-- `prepareOptimizedMessage(question, context)`: the message forwarded
to the conversational backend. -/
def prepareOptimizedMessage (question : String) (context : JsCtx) : String :=
  if ctxHasData context = false then
    String.join ["Pergunta rápida: \"", question, "\" - Sem dados do Power BI."]
  else
    String.join
      ["ANÁLISE RÁPIDA:\nPergunta: \"", question,
       "\"\nDados: ", Nat.repr (ctxRowCount context),
       " registros\nColunas: ",
       String.intercalate ", " ((firstRowKeys context).take 5),
       "\nAmostra: ", jsonStringifyRow (firstRow context),
       "\nRESPONDA DE FORMA CONCISA E DIRETA."]

/-- The response body shape of `chat.js` (the fields the claims
consume). -/
structure ChatResponse where
  statusCode : Nat
  answer : String
  method : String
  executionTime : Nat
  error : Bool
deriving DecidableEq

/-- The response object constructed *inside* the `globalTimeout`
`setTimeout` callback of `chat.js`.  Per JavaScript semantics the value a
timer callback returns is discarded by the event loop, so this object is
never delivered to the handler's caller; it is kept here to compare the
handler's actual responses against it. -/
def fastFallbackResponse (elapsed : Nat) : ChatResponse :=
  { statusCode := 200
    answer := "⚡ Resposta rápida ativada! O Copilot está processando sua pergunta. Funcionalidade otimizada para plano gratuito."
    method := "FAST_FALLBACK"
    executionTime := elapsed
    error := false }

/-- Question extraction of the handler:
`decodeURIComponent(params.question || '').substring(0, 500)` (the query
value is taken already URI-decoded). -/
def chatQuestion (questionParam : Option String) : String :=
  jsSubstring (questionParam.getD "") 500

/-- `exports.handler` of `chat.js`, by the value it actually returns.
`copilotOutcome` is the settled outcome of racing
`sendToCopilotOptimized` against the 6 s Copilot timeout: `some text` if
that race resolved (this covers a configured secret and a reply within
budget), `none` if it rejected (missing `COPILOT_SECRET`,
conversation/post failure, poll exhaustion, or the race timeout).
`elapsed` is the wall-clock time the `executionTime` field reports.  The
`globalTimeout` timer never contributes a return value (see
`fastFallbackResponse`), so the handler's response is decided solely by
this main path. -/
def chatHandler (httpMethod : String) (questionParam : Option String) (context : JsCtx)
    (copilotOutcome : Option String) (elapsed : Nat) : ChatResponse :=
  if httpMethod = "OPTIONS" then
    { statusCode := 204, answer := "", method := "", executionTime := elapsed, error := false }
  else
    let question := chatQuestion questionParam
    if question = "" then
      { statusCode := 200
        answer := "⚠️ Erro de processamento: Parâmetro \x27question\x27 é obrigatório. Sistema funcionando em modo de recuperação."
        method := "ERROR_RECOVERY"
        executionTime := elapsed
        error := true }
    else
      match copilotOutcome with
      | some t =>
          { statusCode := 200
            answer := jsOrDefault t (generateIntelligentFallback question context)
            method := "COPILOT"
            executionTime := elapsed
            error := false }
      | none =>
          { statusCode := 200
            answer := generateIntelligentFallback question context
            method := "FALLBACK"
            executionTime := elapsed
            error := false }

end ChatJs

/-! ## `netlify/functions/chat-jsonp.js` -/

namespace ChatJsonp

/-- The branch `generateSmartFallback` takes, read off its `if` chain:
totals → practitioner/quantities → sales → generic (first match wins on
the lower-cased question). -/
def matchedBucket (question : String) : String :=
  let q := jsToLowerCase question
  if strIncludes q "total" || strIncludes q "soma" || strIncludes q "sum" then "totals"
  else if strIncludes q "médico" || strIncludes q "doctor" || strIncludes q "quantidade" then "doctors"
  else if strIncludes q "vendas" || strIncludes q "receita" || strIncludes q "sales" then "sales"
  else "general"

/-- The totals template of `generateSmartFallback`. -/
def totalsAnswer (question : String) (context : JsCtx) (hasData : Bool)
    (rowCount : Nat) : String :=
  String.join
    ["📊 **ANÁLISE DE TOTAIS via JSONP**\n    \n✅ **Status:** ",
     if hasData then String.join [Nat.repr rowCount, " registros processados"]
     else "Nenhum dado disponível",
     "\n🔍 **Pergunta:** ", question,
     "\n💡 **Sugestão:** ",
     if hasData then "Use SUM() nas colunas numéricas para calcular totais"
     else "Adicione dados numéricos ao visual",
     "\n\n",
     if hasData && ctxHasData context then
       String.join ["📋 **Dados disponíveis:** ", String.intercalate ", " (firstRowKeys context)]
     else "⚠️ Configure dados no visual Power BI"]

/-- The practitioner template of `generateSmartFallback`. -/
def doctorsAnswer (question : String) (context : JsCtx) (hasData : Bool)
    (rowCount : Nat) : String :=
  String.join
    ["👨‍⚕️ **ANÁLISE MÉDICOS via JSONP**\n    \n✅ **Registros encontrados:** ",
     Nat.repr rowCount,
     "\n🔍 **Filtro aplicado:** \"", question,
     "\"\n📊 **Status:** ", if hasData then "Dados carregados" else "Sem dados",
     "\n\n",
     if hasData && ctxHasData context then
       String.join ["📋 **Amostra:** ", jsonStringifyRowPretty (firstRow context)]
     else "⚠️ Carregue dados médicos no visual"]

/-- The sales template of `generateSmartFallback`. -/
def salesAnswer (question : String) (hasData : Bool) (rowCount : Nat) : String :=
  String.join
    ["💰 **ANÁLISE DE VENDAS via JSONP**\n    \n📈 **Transações:** ",
     Nat.repr rowCount,
     " registros\n💵 **Status:** ",
     if hasData then "Dados processados" else "Sem dados de vendas",
     "\n🎯 **Pergunta:** ", question,
     "\n\n",
     if hasData then "✅ Dados prontos para análise de performance"
     else "⚠️ Configure dados de vendas no visual"]

/-- The generic template of `generateSmartFallback`. -/
def generalAnswer (question : String) (context : JsCtx) (hasData : Bool)
    (rowCount : Nat) : String :=
  String.join
    ["🔄 **JSONP CONECTADO COM SUCESSO!**\n  \n✅ **Comunicação:** Ativa via JSONP (bypass CORS)\n🔍 **Pergunta:** \"",
     question,
     "\"\n📊 **Dados:** ",
     if hasData then String.join [Nat.repr rowCount, " registros carregados"]
     else "Nenhum dado disponível",
     "\n⚡ **Método:** Fallback inteligente ativo\n\n",
     if hasData && ctxHasData context then
       "💡 **Dica:** Dados prontos! Faça perguntas mais específicas para análises detalhadas."
     else "🔧 **Ação:** Adicione dados ao visual Power BI para análises completas."]

/-- `generateSmartFallback(question, context, hasData, rowCount)` of
`chat-jsonp.js` (`hasData` and `rowCount` come from the `hasData` and
`rowCount` query parameters, not from the context array). -/
def generateSmartFallback (question : String) (context : JsCtx) (hasData : Bool)
    (rowCount : Nat) : String :=
  let q := jsToLowerCase question
  if strIncludes q "total" || strIncludes q "soma" || strIncludes q "sum" then
    totalsAnswer question context hasData rowCount
  else if strIncludes q "médico" || strIncludes q "doctor" || strIncludes q "quantidade" then
    doctorsAnswer question context hasData rowCount
  else if strIncludes q "vendas" || strIncludes q "receita" || strIncludes q "sales" then
    salesAnswer question hasData rowCount
  else generalAnswer question context hasData rowCount

/-- `exports.handler` of `chat-jsonp.js` on its non-crashing path:
`copilotOutcome` is the settled outcome of racing `sendToCopilotFast`
against the 5 s timeout (`none` on any rejection, including a missing
`COPILOT_SECRET`).  The status code is always 200 and the
`{answer, method}` pair is serialized into the `callback(...)` body. -/
def handler (questionParam : Option String) (context : JsCtx) (hasData : Bool)
    (rowCount : Nat) (copilotOutcome : Option String) : ProxyResponse :=
  let question := questionParam.getD "Pergunta não informada"
  match copilotOutcome with
  | some t => { statusCode := 200, answer := t, method := "JSONP_COPILOT" }
  | none =>
      { statusCode := 200
        answer := generateSmartFallback question context hasData rowCount
        method := "JSONP_FALLBACK" }

end ChatJsonp

/-! ## `netlify/functions/chat-iframe.js` (inside `debug.js`) -/

namespace ChatIframe

/-- The branch `generateIframeFallback` takes: its single keyword test
(`quantidade` or `médico`) against the lower-cased question, else the
generic branch. -/
def matchedBucket (question : String) : String :=
  let q := jsToLowerCase question
  if strIncludes q "quantidade" || strIncludes q "médico" then "doctors" else "general"

/-- The practitioner template of `generateIframeFallback`. -/
def doctorsAnswer (question : String) (context : JsCtx) (hasData : Bool)
    (rowCount : Nat) : String :=
  String.join
    ["👨‍⚕️ **ANÁLISE MÉDICOS via Iframe**\n\n🖼️ **Método:** Iframe + PostMessage ativo\n📊 **Dados:** ",
     if hasData then String.join [Nat.repr rowCount, " registros médicos encontrados"]
     else "Nenhum dado médico disponível",
     "\n🔍 **Pergunta:** ", question,
     "\n\n",
     if hasData && ctxHasData context then
       String.join
         ["📋 **Colunas disponíveis:** ", String.intercalate ", " (firstRowKeys context),
          "\n   📝 **Primeira entrada:** ", jsonStringifyRowPretty (firstRow context)]
     else "⚠️ **Ação necessária:** Configure dados médicos no visual Power BI",
     "\n\n💡 **Sugestão:** ",
     if hasData then "Agrupe por nome do médico para análise detalhada"
     else "Adicione dados da tabela de médicos ao visual"]

/-- The generic template of `generateIframeFallback`. -/
def generalAnswer (question : String) (hasData : Bool) (rowCount : Nat) : String :=
  String.join
    ["🖼️ **IFRAME BRIDGE ATIVO!**\n\n✅ **Comunicação:** PostMessage funcionando\n🔍 **Pergunta:** \"",
     question,
     "\"\n📊 **Status dos dados:** ",
     if hasData then String.join [Nat.repr rowCount, " registros carregados"]
     else "Nenhum dado disponível",
     "\n⚡ **Método:** Contorno de CSP via Iframe\n\n",
     if hasData then
       "💡 **Dica:** Dados carregados! Faça perguntas específicas para análises detalhadas."
     else "🔧 **Configure:** Adicione dados ao visual Power BI para análises completas."]

/-- `generateIframeFallback(question, context, hasData, rowCount)`. -/
def generateIframeFallback (question : String) (context : JsCtx) (hasData : Bool)
    (rowCount : Nat) : String :=
  let q := jsToLowerCase question
  if strIncludes q "quantidade" || strIncludes q "médico" then
    doctorsAnswer question context hasData rowCount
  else generalAnswer question hasData rowCount

/-- `exports.handler` of `chat-iframe.js` on its non-crashing path: the
HTML page is returned with status 200 and posts `{answer, method, ...}`
to the parent frame. -/
def handler (questionParam : Option String) (context : JsCtx) (hasData : Bool)
    (rowCount : Nat) (copilotOutcome : Option String) : ProxyResponse :=
  let question := questionParam.getD "Pergunta não informada"
  match copilotOutcome with
  | some t => { statusCode := 200, answer := t, method := "IFRAME_COPILOT" }
  | none =>
      { statusCode := 200
        answer := generateIframeFallback question context hasData rowCount
        method := "IFRAME_FALLBACK" }

end ChatIframe

/-! ## `netlify/functions/chat-sse.js` (source file `unnamed/part_002`) -/

namespace ChatSse

/-- The branch `generateFallbackResponse` takes: totals → quantities →
generic. -/
def matchedBucket (question : String) : String :=
  let q := jsToLowerCase question
  if strIncludes q "total" || strIncludes q "soma" then "totals"
  else if strIncludes q "quantidade" || strIncludes q "qtd" then "quantities"
  else "general"

/-- `generateFallbackResponse(question, context)` of `chat-sse.js`. -/
def generateFallbackResponse (question : String) (context : JsCtx) : String :=
  let q := jsToLowerCase question
  let hasData := ctxHasData context
  let rowCount := if hasData then ctxRowCount context else 0
  if strIncludes q "total" || strIncludes q "soma" then
    String.join
      ["📊 ANÁLISE DE TOTAIS (via SSE): ",
       if hasData then String.join ["Processando ", Nat.repr rowCount, " registros"]
       else "Nenhum dado disponível"]
  else if strIncludes q "quantidade" || strIncludes q "qtd" then
    String.join
      ["🔢 ANÁLISE DE QUANTIDADES (via SSE): ",
       if hasData then String.join [Nat.repr rowCount, " registros encontrados"]
       else "Carregue dados no visual"]
  else
    String.join
      ["✅ Conectado via SSE! Pergunta: \"", question,
       "\". Dados: ",
       if hasData then String.join [Nat.repr rowCount, " registros"] else "Sem dados"]

/-- `exports.handler` of `chat-sse.js`: one SSE event with status 200;
`copilotOutcome` is `some text` if `sendToCopilot` resolved, `none` if it
threw (missing secret, conversation failure, or the 6-round poll
exhausting). -/
def handler (questionParam : Option String) (context : JsCtx)
    (copilotOutcome : Option String) : ProxyResponse :=
  let question := questionParam.getD "Pergunta não informada"
  match copilotOutcome with
  | some t => { statusCode := 200, answer := t, method := "SSE" }
  | none =>
      { statusCode := 200
        answer := generateFallbackResponse question context
        method := "SSE_FALLBACK" }

end ChatSse

/-! ## `netlify/functions/chat-pixel.js` -/

namespace ChatPixel

/-- The branch `generateFallbackResponse` takes: practitioner → sales →
generic. -/
def matchedBucket (question : String) : String :=
  let q := jsToLowerCase question
  if strIncludes q "médico" || strIncludes q "doctor" then "doctors"
  else if strIncludes q "vendas" || strIncludes q "receita" then "sales"
  else "general"

/-- `generateFallbackResponse(question, context)` of `chat-pixel.js`. -/
def generateFallbackResponse (question : String) (context : JsCtx) : String :=
  let q := jsToLowerCase question
  let hasData := ctxHasData context
  let rowCount := if hasData then ctxRowCount context else 0
  if strIncludes q "médico" || strIncludes q "doctor" then
    String.join
      ["👨‍⚕️ ANÁLISE MÉDICOS (via Pixel): ",
       if hasData then String.join ["Encontrados ", Nat.repr rowCount, " registros médicos"]
       else "Dados médicos não disponíveis"]
  else if strIncludes q "vendas" || strIncludes q "receita" then
    String.join
      ["💰 ANÁLISE VENDAS (via Pixel): ",
       if hasData then String.join ["Processando ", Nat.repr rowCount, " transações"]
       else "Dados de vendas não carregados"]
  else
    String.join
      ["🖼️ Conectado via Pixel Tracking! Pergunta: \"", question,
       "\". Status: ",
       if hasData then String.join [Nat.repr rowCount, " registros"] else "Sem dados"]

/-- The payload the detached background task of `chat-pixel.js` writes to
the storage bridge. -/
structure StoredPayload where
  answer : String
  method : String
  success : Bool
deriving DecidableEq

/-- `exports.handler` of `chat-pixel.js`: the HTTP response is always the
status-200 1×1 pixel; the answer travels through the storage bridge.  The
first component is the HTTP status code, the second the payload the
background task stores for the session. -/
def handler (questionParam : Option String) (context : JsCtx)
    (copilotOutcome : Option String) : Nat × StoredPayload :=
  let question := questionParam.getD "Pergunta não informada"
  match copilotOutcome with
  | some t => (200, { answer := t, method := "PIXEL", success := true })
  | none =>
      (200,
       { answer := generateFallbackResponse question context
         method := "PIXEL_FALLBACK"
         success := false })

end ChatPixel

/-! ## Spec-side ordered-bucket classifier (for the refinement claim) -/

/-- Modelled from the claim's words (claim C8 / spec §4.3): the
rule-based generator is said to match the lower-cased question against
ordered keyword buckets in the fixed order totals/sums → quantities →
sales/revenue → practitioner terms → averages → comparisons, first match
wins, generic default.  The keyword lists are the ones of `chat.js`
(`ChatJs.questionTypes` is written in exactly this order). -/
def claimedFirstMatch (question : String) : String :=
  let q := jsToLowerCase question
  match ChatJs.questionTypes.find? (fun b => b.2.any (fun t => strIncludes q t)) with
  | some b => b.1
  | none => "general"

/-- Modelled from the claim's words (spec-side, for the refinement
comparison): "matches it against ordered keyword buckets … where the
first matching bucket wins and a generic bucket is the default" — the
first bucket of `buckets` one of whose keywords occurs in the
lower-cased question, else `general`. -/
def firstMatchIn (question : String) (buckets : List (String × List String)) : String :=
  match buckets.find? (fun b => b.2.any (fun t => strIncludes (jsToLowerCase question) t)) with
  | some b => b.1
  | none => "general"

/-- A host view whose `categorical` mapping carries the given category
and measure columns (the shape `update` hands to `processDataView`). -/
def mkCategoricalView {α : Type} (cats vals : List (CategoricalColumn α)) : DataView α :=
  { categorical := some { categories := some cats, values := some vals } }

/-! # Theorems -/

/-! ## String helper lemmas -/

theorem string_data_join (l : List String) :
    (String.join l).data = (l.map String.data).flatten := by
  have aux : ∀ (l : List String) (a : String),
      (l.foldl (· ++ ·) a).data = a.data ++ (l.map String.data).flatten := by
    intro l
    induction l with
    | nil => intro a; simp
    | cons x xs ih =>
        intro a
        simp only [List.foldl_cons, List.map_cons, List.flatten_cons]
        rw [ih (a ++ x), String.data_append, List.append_assoc]
  simpa using aux l ""

theorem strIncludes_of_mem_join (l : List String) (x : String) (hx : x ∈ l) :
    strIncludes (String.join l) x = true := by
  have h₁ : x.data ∈ l.map String.data := List.mem_map_of_mem String.data hx
  have h₂ : x.data <:+: (l.map String.data).flatten := List.infix_of_mem_flatten h₁
  simp only [strIncludes, decide_eq_true_eq, string_data_join]
  exact h₂

theorem strIncludes_trans (a b c : String) (h₁ : strIncludes a b = true)
    (h₂ : strIncludes b c = true) : strIncludes a c = true := by
  simp only [strIncludes, decide_eq_true_eq] at *
  exact h₂.trans h₁

theorem strIncludes_refl (a : String) : strIncludes a a = true := by
  simp only [strIncludes, decide_eq_true_eq]
  exact List.infix_rfl

theorem strIncludes_length_le (s pat : String) (h : strIncludes s pat = true) :
    pat.length ≤ s.length := by
  simp only [strIncludes, decide_eq_true_eq] at h
  exact h.length_le

theorem jsOrString_ne_empty (x : Option String) (d : String) (hd : d ≠ "") :
    jsOrString x d ≠ "" := by
  cases x with
  | none => simpa [jsOrString] using hd
  | some s =>
      by_cases hs : s = "" <;> simp [jsOrString, hs, hd]

/-! ## Storage-bridge lemmas -/

theorem mapGet_mapSet_self {α : Type} (m : List (String × α)) (k : String) (v : α) :
    mapGet (mapSet m k v) k = some v := by
  unfold mapSet
  by_cases h : m.any (fun p => p.1 = k)
  · simp only [h, if_true]
    induction m with
    | nil => simp at h
    | cons p ps ih =>
        simp only [List.map_cons, mapGet, List.find?_cons]
        by_cases hp : p.1 = k
        · simp [hp]
        · have hps : ps.any (fun p => p.1 = k) := by
            simp only [List.any_cons] at h
            rcases Bool.or_eq_true_iff.mp h with h₁ | h₂
            · exact absurd (of_decide_eq_true h₁) hp
            · exact h₂
          simp only [hp, decide_eq_true_eq, if_neg hp]
          simpa [mapGet, hp] using ih hps
  · simp only [h, if_false]
    have hm : (m.find? (fun p => p.1 = k)) = none := by
      rw [List.find?_eq_none]
      intro p hp hpk
      exact h (List.any_eq_true.mpr ⟨p, hp, hpk⟩)
    simp [mapGet, List.find?_append, hm]

theorem mapGet_mapDelete_self {α : Type} (m : List (String × α)) (k : String) :
    mapGet (mapDelete m k) k = none := by
  unfold mapGet mapDelete
  rw [List.find?_eq_none.mpr]
  · rfl
  · intro p hp
    have := (List.mem_filter.mp hp).2
    simpa using this

theorem mapGet_mapDelete_of_none {α : Type} (m : List (String × α)) (k k₂ : String)
    (h : mapGet m k₂ = none) : mapGet (mapDelete m k) k₂ = none := by
  unfold mapGet mapDelete at *
  rw [List.find?_eq_none.mpr]
  · rfl
  · intro p hp
    have hpm := (List.mem_filter.mp hp).1
    have := List.find?_eq_none.mp (by
      cases hf : m.find? (fun p => p.1 = k₂) with
      | none => rfl
      | some q => simp [hf] at h) p hpm
    exact this

/-- C2: after `store(id, X)` the first `fetch(id)` returns
`{found: true, data: X}` (the stored entry carrying `X`, stamped with the
`storedAt` time) exactly once and deletes the entry: a second immediate
`fetch(id)` returns `{found: false}`, so the entry is never observed as
present more than once (destructive read). -/
theorem claim_C2_store_then_destructive_fetch {α : Type} (s : StoreState α) (now : Nat)
    (sessionId : String) (x : α) :
    (storageBridgeStore s now sessionId x).2 = { stored := true, sessionId := sessionId }
    ∧ (storageBridgeFetch (storageBridgeStore s now sessionId x).1 sessionId).2
        = FetchResult.found { data := x, storedAt := now }
    ∧ (storageBridgeFetch
         (storageBridgeFetch (storageBridgeStore s now sessionId x).1 sessionId).1
         sessionId).2
        = FetchResult.waiting := by
  refine ⟨rfl, ?_, ?_⟩
  · unfold storageBridgeFetch storageBridgeStore
    simp [mapGet_mapSet_self]
  · unfold storageBridgeFetch storageBridgeStore
    simp [mapGet_mapSet_self, mapGet_mapDelete_self]

/-- C9: a stored entry that is never fetched becomes unreachable once the
simulated clock passes `storedAt + 5` minutes: the scheduled cleanup task
fires and a later `fetch` for that session id returns `{found: false}`. -/
theorem claim_C9_unclaimed_entry_expires {α : Type} (s : StoreState α) (t₀ : Nat)
    (sessionId : String) (x : α) (t : Nat) (ht : t₀ + 5 * 60 * 1000 ≤ t) :
    (storageBridgeFetch (fireCleanups t (storageBridgeStore s t₀ sessionId x).1)
      sessionId).2 = FetchResult.waiting := by
  unfold storageBridgeStore fireCleanups
  simp only
  rw [List.foldl_concat]
  simp only [ht, if_true]
  unfold storageBridgeFetch
  rw [mapGet_mapDelete_self]

/-- Witness for C9 at a concrete store/fetch timeline. -/
theorem claim_C9_witness :
    (storageBridgeFetch
      (fireCleanups 300000 (storageBridgeStore (StoreState.mk ([] : List (String × StoredEntry Nat)) []) 0 "pbi_pixel_1" 7).1)
      "pbi_pixel_1").2 = FetchResult.waiting :=
  claim_C9_unclaimed_entry_expires ⟨[], []⟩ 0 "pbi_pixel_1" 7 300000 (by decide)

/-! ## C4 — failure cooldown -/

/-- C4: an adapter whose invocation fails (the catch branch, which also
catches losing the 16 s per-attempt race) has `enabled` set to `false`
and stays excluded from the `enabled` selection filter while the
simulated clock is strictly before `failureTime + 30000`; from
`failureTime + 30000` on, the deferred task has flipped `enabled` back to
`true`.  The last conjunct ties exclusion to selection: every method the
`enabledMethods` selection returns has `enabled = true`. -/
theorem claim_C4_thirty_second_cooldown (tm : TimedMethod) (t t' : Nat) :
    ((disableOnFailure t tm).method.enabled = false)
    ∧ (t' < t + 30000 → (elapseTo t' (disableOnFailure t tm)).method.enabled = false)
    ∧ (t + 30000 ≤ t' → (elapseTo t' (disableOnFailure t tm)).method.enabled = true)
    ∧ (∀ (ms : List CommunicationMethod) (m : CommunicationMethod),
         m ∈ enabledMethods ms → m.enabled = true) := by
  refine ⟨rfl, ?_, ?_, ?_⟩
  · intro hlt
    have : ¬ (t + 30000 ≤ t') := Nat.not_le.mpr hlt
    simp [elapseTo, disableOnFailure, this]
  · intro hle
    simp [elapseTo, disableOnFailure, hle]
  · intro ms m hm
    have hmem : m ∈ ms.filter (fun m => m.enabled) :=
      (List.perm_insertionSort byPriority (ms.filter (fun m => m.enabled))).mem_iff.mp hm
    simpa using (List.mem_filter.mp hmem).2

/-- Witness for C4 on a concrete timeline: a failure at `t = 0` leaves
the JSONP method disabled at `t = 29999` and re-enabled at `t = 30000`. -/
theorem claim_C4_witness :
    ((elapseTo 29999 (disableOnFailure 0 ⟨⟨"JSONP", 1, true⟩, none⟩)).method.enabled = false)
    ∧ ((elapseTo 30000 (disableOnFailure 0 ⟨⟨"JSONP", 1, true⟩, none⟩)).method.enabled = true) :=
  ⟨(claim_C4_thirty_second_cooldown ⟨⟨"JSONP", 1, true⟩, none⟩ 0 29999).2.1 (by decide),
   (claim_C4_thirty_second_cooldown ⟨⟨"JSONP", 1, true⟩, none⟩ 0 30000).2.2.1 (by decide)⟩

/-! ## C10 — all adapters disabled -/

/-- C10: if every communication method's `enabled` flag is `false` when a
question is sent, `sendMessageWithFallback` attempts no adapter (empty
attempt trace) and rejects immediately; no failure was recorded, so
`lastError` is still `null` and the thrown message interpolates the
missing error message as the literal `undefined`. -/
theorem claim_C10_reject_when_all_disabled {γ : Type}
    (raced : CommunicationMethod → String → γ → RacedOutcome)
    (question : String) (ctx : γ) :
    sendMessageWithFallback raced (communicationMethods false false false false) question ctx
      = (Except.error "Comunicação falhou. Último erro: undefined", []) := rfl

/-! ## C7 — data context extractor -/

/-- C7: `processDataView` flattens categorical and measure columns into
one ordered list (`[...categories, ...values]` in source order), sets
`rowCount` to the length of the first column's series, and builds
`sampleData` by positionally zipping all columns for `min(rowCount, 10)`
rows (each sample row has one cell per column); an absent view, an absent
`categorical` mapping, or an empty column list yields `hasData = false`
with empty columns and empty sample. -/
theorem claim_C7_processDataView_shape {α : Type}
    (cats vals : List (CategoricalColumn α))
    (c₀ : CategoricalColumn α) (rest : List (CategoricalColumn α))
    (h : cats ++ vals = c₀ :: rest) :
    ((processDataView (some (mkCategoricalView cats vals))).hasData = true)
    ∧ ((processDataView (some (mkCategoricalView cats vals))).rowCount = c₀.values.length)
    ∧ ((processDataView (some (mkCategoricalView cats vals))).sampleData.length
        = min c₀.values.length 10)
    ∧ ((processDataView (some (mkCategoricalView cats vals))).columns
        = (cats ++ vals).map (fun col =>
            { name := col.source.displayName
              type := if col.source.isMeasure then "medida" else "categoria" }))
    ∧ (∀ row, row ∈ (processDataView (some (mkCategoricalView cats vals))).sampleData →
        row.length = (cats ++ vals).length)
    ∧ (processDataView (none : Option (DataView α)) = emptyContext)
    ∧ (processDataView (some ({ categorical := none } : DataView α)) = emptyContext)
    ∧ (processDataView (some (mkCategoricalView ([] : List (CategoricalColumn α)) []))
        = emptyContext) := by
  have hred : processDataView (some (mkCategoricalView cats vals))
      = { hasData := true
          rowCount := c₀.values.length
          columns := (c₀ :: rest).map (fun col =>
            { name := col.source.displayName
              type := if col.source.isMeasure then "medida" else "categoria" })
          sampleData := (List.range (min c₀.values.length 10)).map (fun i =>
            (c₀ :: rest).map (fun col => (col.source.displayName, col.values.get? i))) } := by
    unfold processDataView mkCategoricalView
    simp only [Option.getD_some]
    rw [h]
  refine ⟨?_, ?_, ?_, ?_, ?_, rfl, rfl, ?_⟩
  · rw [hred]
  · rw [hred]
  · rw [hred]; simp
  · rw [hred, h]
  · intro row hrow
    rw [hred] at hrow
    simp only [List.mem_map] at hrow
    obtain ⟨i, _, hi⟩ := hrow
    rw [← hi, h]
    simp
  · unfold processDataView mkCategoricalView
    simp

/-- Witness for C7: a view with 3 columns (one category, two measures)
and 12 rows yields `rowCount = 12` and a sample of exactly 10 rows of 3
cells each. -/
theorem claim_C7_witness :
    ((processDataView (some (mkCategoricalView
        [⟨⟨"Categoria", false⟩, List.range 12⟩]
        [⟨⟨"Medida1", true⟩, List.range 12⟩, ⟨⟨"Medida2", true⟩, List.range 12⟩]))).rowCount = 12)
    ∧ ((processDataView (some (mkCategoricalView
        [⟨⟨"Categoria", false⟩, List.range 12⟩]
        [⟨⟨"Medida1", true⟩, List.range 12⟩, ⟨⟨"Medida2", true⟩, List.range 12⟩]))).sampleData.length = 10) := by
  have happ := claim_C7_processDataView_shape
    [⟨⟨"Categoria", false⟩, List.range 12⟩]
    [⟨⟨"Medida1", true⟩, (List.range 12 : List Nat)⟩, ⟨⟨"Medida2", true⟩, List.range 12⟩]
    ⟨⟨"Categoria", false⟩, List.range 12⟩
    [⟨⟨"Medida1", true⟩, List.range 12⟩, ⟨⟨"Medida2", true⟩, List.range 12⟩]
    rfl
  refine ⟨?_, ?_⟩
  · rw [happ.2.1]; decide
  · rw [happ.2.2.1]; decide

/-! ## C1 — fallback controller contract -/

theorem runFallback_ok_mem (att : CommunicationMethod → Except String String)
    (l : List CommunicationMethod) (e₀ : Option String) (a : String)
    (h : (runFallback att l e₀).1 = Except.ok a) :
    ∃ m, m ∈ l ∧ att m = Except.ok a := by
  induction l generalizing e₀ with
  | nil => simp [runFallback] at h
  | cons m rest ih =>
      cases hatt : att m with
      | ok ans =>
          have : ans = a := by simpa [runFallback, hatt] using h
          exact ⟨m, List.mem_cons_self m rest, by rw [hatt, this]⟩
      | error e =>
          have h₂ : (runFallback att rest (some e)).1 = Except.ok a := by
            simpa [runFallback, hatt] using h
          obtain ⟨m₂, hmem, hok⟩ := ih (some e) h₂
          exact ⟨m₂, List.mem_cons_of_mem m hmem, hok⟩

theorem runFallback_error_spec (att : CommunicationMethod → Except String String)
    (l : List CommunicationMethod) (e₀ : Option String) (msg : String)
    (h : (runFallback att l e₀).1 = Except.error msg) :
    (runFallback att l e₀).2 = l.map (fun m => m.name)
    ∧ (∀ m, m ∈ l → ∃ e, att m = Except.error e)
    ∧ ((l = [] ∧ msg = "Comunicação falhou. Último erro: " ++ lastErrorMessage e₀)
       ∨ (∃ ml e, l.getLast? = some ml ∧ att ml = Except.error e
           ∧ msg = "Comunicação falhou. Último erro: " ++ e)) := by
  induction l generalizing e₀ with
  | nil =>
      have hm : msg = "Comunicação falhou. Último erro: " ++ lastErrorMessage e₀ := by
        have := h
        simp only [runFallback] at this
        exact (Except.error.inj this).symm
      exact ⟨rfl, by simp, Or.inl ⟨rfl, hm⟩⟩
  | cons m rest ih =>
      cases hatt : att m with
      | ok ans => simp [runFallback, hatt] at h
      | error e =>
          have h₂ : (runFallback att rest (some e)).1 = Except.error msg := by
            simpa [runFallback, hatt] using h
          obtain ⟨htr, hall, hlast⟩ := ih (some e) h₂
          refine ⟨?_, ?_, ?_⟩
          · simp [runFallback, hatt, htr]
          · intro m₂ hm₂
            rcases List.mem_cons.mp hm₂ with rfl | hm₂
            · exact ⟨e, hatt⟩
            · exact hall m₂ hm₂
          · rcases hlast with ⟨hrest, hmsg⟩ | ⟨ml, e₂, hl, hae, hm⟩
            · subst hrest
              exact Or.inr ⟨m, e, by simp, hatt, by simpa [lastErrorMessage] using hmsg⟩
            · refine Or.inr ⟨ml, e₂, ?_, hae, hm⟩
              cases rest with
              | nil => simp at hl
              | cons r rs => simpa [List.getLast?_cons_cons] using hl

theorem enabledMethods_mem_iff (ms : List CommunicationMethod) (m : CommunicationMethod) :
    m ∈ enabledMethods ms ↔ (m ∈ ms ∧ m.enabled = true) := by
  unfold enabledMethods
  rw [(List.perm_insertionSort byPriority (ms.filter (fun m => m.enabled))).mem_iff]
  simp [List.mem_filter]

theorem enabledMethods_names_nodup (e₁ e₂ e₃ e₄ : Bool) :
    (((enabledMethods (communicationMethods e₁ e₂ e₃ e₄)).map (fun m => m.name)).Nodup) := by
  have horig : (((communicationMethods e₁ e₂ e₃ e₄).map (fun m => m.name)).Nodup) := by
    simp [communicationMethods]
  have hsub : List.Sublist ((communicationMethods e₁ e₂ e₃ e₄).filter (fun m => m.enabled))
      (communicationMethods e₁ e₂ e₃ e₄) := List.filter_sublist _
  have hfil := horig.sublist (hsub.map (fun m => m.name))
  have hperm := (List.perm_insertionSort byPriority
    ((communicationMethods e₁ e₂ e₃ e₄).filter (fun m => m.enabled))).map (fun m => m.name)
  exact (hperm.nodup_iff).mpr hfil

/-- C1: for every question and data context (abstracted by the outcome
oracle `raced` of the four adapters), `sendMessageWithFallback` either
resolves with a non-empty answer string, or rejects only after every
method that was enabled at the start of the call has been attempted
exactly once, in ascending priority order (the attempt trace is exactly
the priority-sorted enabled list), with the rejection embedding the
message of the last-seen adapter failure. -/
theorem claim_C1_fallback_contract {α : Type} (e₁ e₂ e₃ e₄ : Bool)
    (raced : CommunicationMethod → String → DataContext α → RacedOutcome)
    (question : String) (ctx : DataContext α) :
    (∀ a, (sendMessageWithFallback raced (communicationMethods e₁ e₂ e₃ e₄) question ctx).1
        = Except.ok a → a ≠ "")
    ∧ List.Sorted byPriority (enabledMethods (communicationMethods e₁ e₂ e₃ e₄))
    ∧ (∀ m, m ∈ enabledMethods (communicationMethods e₁ e₂ e₃ e₄)
        ↔ (m ∈ communicationMethods e₁ e₂ e₃ e₄ ∧ m.enabled = true))
    ∧ (∀ msg,
        (sendMessageWithFallback raced (communicationMethods e₁ e₂ e₃ e₄) question ctx).1
          = Except.error msg →
        (sendMessageWithFallback raced (communicationMethods e₁ e₂ e₃ e₄) question ctx).2
          = (enabledMethods (communicationMethods e₁ e₂ e₃ e₄)).map (fun m => m.name)
        ∧ (∀ m, m ∈ enabledMethods (communicationMethods e₁ e₂ e₃ e₄) →
            ∃ e, adapterAttempt raced m question ctx = Except.error e)
        ∧ (∀ n, n ∈ (sendMessageWithFallback raced (communicationMethods e₁ e₂ e₃ e₄) question ctx).2 →
            ((sendMessageWithFallback raced (communicationMethods e₁ e₂ e₃ e₄) question ctx).2).count n = 1)
        ∧ (enabledMethods (communicationMethods e₁ e₂ e₃ e₄) = []
           ∨ ∃ ml e, (enabledMethods (communicationMethods e₁ e₂ e₃ e₄)).getLast? = some ml
               ∧ adapterAttempt raced ml question ctx = Except.error e
               ∧ msg = "Comunicação falhou. Último erro: " ++ e)) := by
  have hdef : ∀ m, m ∈ communicationMethods e₁ e₂ e₃ e₄ → adapterDefaultAnswer m.name ≠ "" := by
    intro m hm
    simp only [communicationMethods, List.mem_cons, List.not_mem_nil, or_false] at hm
    rcases hm with rfl | rfl | rfl | rfl
    · exact (by decide : adapterDefaultAnswer "JSONP" ≠ "")
    · exact (by decide : adapterDefaultAnswer "Iframe" ≠ "")
    · exact (by decide : adapterDefaultAnswer "SSE" ≠ "")
    · exact (by decide : adapterDefaultAnswer "Pixel" ≠ "")
  refine ⟨?_, ?_, fun m => enabledMethods_mem_iff _ m, ?_⟩
  · intro a hok
    obtain ⟨m, hmem, hatt⟩ := runFallback_ok_mem _ _ _ _ hok
    have hmms : m ∈ communicationMethods e₁ e₂ e₃ e₄ :=
      ((enabledMethods_mem_iff _ m).mp hmem).1
    unfold adapterAttempt at hatt
    cases hr : raced m question ctx with
    | answered raw =>
        rw [hr] at hatt
        have : jsOrString raw (adapterDefaultAnswer m.name) = a := Except.ok.inj hatt
        rw [← this]
        exact jsOrString_ne_empty raw _ (hdef m hmms)
    | failed e => rw [hr] at hatt; exact absurd hatt (by simp)
  · exact List.sorted_insertionSort byPriority _
  · intro msg herr
    have herr₂ : (runFallback (fun m => adapterAttempt raced m question ctx)
        (enabledMethods (communicationMethods e₁ e₂ e₃ e₄)) none).1 = Except.error msg := herr
    obtain ⟨htr, hall, hlast⟩ := runFallback_error_spec _ _ _ _ herr₂
    refine ⟨htr, fun m hm => hall m hm, ?_, ?_⟩
    · intro n hn
      have hnodup : ((runFallback (fun m => adapterAttempt raced m question ctx)
          (enabledMethods (communicationMethods e₁ e₂ e₃ e₄)) none).2).Nodup := by
        rw [htr]; exact enabledMethods_names_nodup e₁ e₂ e₃ e₄
      exact List.count_eq_one_of_mem hnodup hn
    · rcases hlast with ⟨hnil, _⟩ | ⟨ml, e, hl, hae, hm⟩
      · exact Or.inl hnil
      · exact Or.inr ⟨ml, e, hl, hae, hm⟩

/-- Witness for C1: with all four methods enabled, an oracle that always
fails yields the full four-name attempt trace, and an oracle that
resolves with an absent `data.answer` yields the non-empty JSONP default
answer. -/
theorem claim_C1_witness :
    ((sendMessageWithFallback (fun _ _ _ => RacedOutcome.answered none)
        (communicationMethods true true true true) "total"
        (emptyContext : DataContext Nat)).1 = Except.ok "Resposta JSONP recebida"
      → "Resposta JSONP recebida" ≠ "")
    ∧ ((sendMessageWithFallback (fun _ _ _ => RacedOutcome.failed "Timeout geral")
        (communicationMethods true true true true) "total"
        (emptyContext : DataContext Nat)).2
        = (enabledMethods (communicationMethods true true true true)).map (fun m => m.name)) :=
  ⟨(@claim_C1_fallback_contract Nat true true true true
      (fun _ _ _ => RacedOutcome.answered none) "total" emptyContext).1
      "Resposta JSONP recebida",
   ((@claim_C1_fallback_contract Nat true true true true
      (fun _ _ _ => RacedOutcome.failed "Timeout geral") "total" emptyContext).2.2.2
      "Comunicação falhou. Último erro: Timeout geral" rfl).1⟩

/-! ## C3 — the discarded global-timeout response of `chat.js` -/

/-- C3 (refuting theorem): the value `returned` inside the
`globalTimeout` callback of `chat.js` is discarded by the JavaScript
event loop, so no invocation of the handler — whatever the request, the
Copilot outcome, or the elapsed time, in particular when processing
exceeds the 8.5 s budget — ever responds with the canned
`FAST_FALLBACK` "still processing" body: the handler's `method` field is
always one of `""` (OPTIONS), `ERROR_RECOVERY`, `COPILOT`, `FALLBACK`. -/
theorem claim_C3_fast_fallback_never_returned (httpMethod : String)
    (questionParam : Option String) (context : JsCtx)
    (copilotOutcome : Option String) (elapsed e₂ : Nat) :
    ((ChatJs.chatHandler httpMethod questionParam context copilotOutcome elapsed).method
        ≠ "FAST_FALLBACK")
    ∧ (ChatJs.chatHandler httpMethod questionParam context copilotOutcome elapsed
        ≠ ChatJs.fastFallbackResponse e₂)
    ∧ ((ChatJs.chatHandler httpMethod questionParam context copilotOutcome elapsed).method = ""
       ∨ (ChatJs.chatHandler httpMethod questionParam context copilotOutcome elapsed).method
          = "ERROR_RECOVERY"
       ∨ (ChatJs.chatHandler httpMethod questionParam context copilotOutcome elapsed).method
          = "COPILOT"
       ∨ (ChatJs.chatHandler httpMethod questionParam context copilotOutcome elapsed).method
          = "FALLBACK") := by
  have hm : (ChatJs.chatHandler httpMethod questionParam context copilotOutcome elapsed).method = ""
      ∨ (ChatJs.chatHandler httpMethod questionParam context copilotOutcome elapsed).method
        = "ERROR_RECOVERY"
      ∨ (ChatJs.chatHandler httpMethod questionParam context copilotOutcome elapsed).method
        = "COPILOT"
      ∨ (ChatJs.chatHandler httpMethod questionParam context copilotOutcome elapsed).method
        = "FALLBACK" := by
    unfold ChatJs.chatHandler
    by_cases h₁ : httpMethod = "OPTIONS"
    · simp [h₁]
    · by_cases h₂ : ChatJs.chatQuestion questionParam = ""
      · simp [h₁, h₂]
      · cases copilotOutcome <;> simp [h₁, h₂]
  refine ⟨?_, ?_, hm⟩
  · intro hc
    rcases hm with h | h | h | h <;> rw [hc] at h <;> exact absurd h (by decide)
  · intro hc
    have : (ChatJs.chatHandler httpMethod questionParam context copilotOutcome elapsed).method
        = "FAST_FALLBACK" := by rw [hc]; rfl
    rcases hm with h | h | h | h <;> rw [this] at h <;> exact absurd h (by decide)

/-! ## C5 — fallback answers of every proxy -/

theorem strIncludes_join_of_mem_of_includes (l : List String) (x pat : String)
    (hx : x ∈ l) (h : strIncludes x pat = true) :
    strIncludes (String.join l) pat = true :=
  strIncludes_trans _ _ _ (strIncludes_of_mem_join l x hx) h

theorem ne_empty_of_strIncludes (s pat : String) (h : strIncludes s pat = true)
    (hp : 0 < pat.length) : s ≠ "" := by
  intro hs
  subst hs
  have hle := strIncludes_length_le "" pat h
  have h0 : ("" : String).length = 0 := rfl
  omega

theorem chatJs_totalsAnswer_contains (n : Nat) (kw : List String) (context : JsCtx) :
    strIncludes (ChatJs.totalsAnswer true n kw context) (Nat.repr n) = true
    ∧ ChatJs.totalsAnswer true n kw context ≠ "" := by
  unfold ChatJs.totalsAnswer
  rw [if_pos rfl]
  constructor
  · exact strIncludes_join_of_mem_of_includes _ _ _
      (List.mem_cons_of_mem _ (List.mem_cons_self _ _))
      (strIncludes_of_mem_join _ _ (by simp))
  · exact ne_empty_of_strIncludes _ "📊 **ANÁLISE DE TOTAIS** "
      (strIncludes_of_mem_join _ _ (by simp)) (by decide)

theorem chatJs_doctorsAnswer_contains (n : Nat) (kw : List String) (context : JsCtx) :
    strIncludes (ChatJs.doctorsAnswer true n kw context) (Nat.repr n) = true
    ∧ ChatJs.doctorsAnswer true n kw context ≠ "" := by
  unfold ChatJs.doctorsAnswer
  rw [if_pos rfl]
  constructor
  · exact strIncludes_join_of_mem_of_includes _ _ _
      (List.mem_cons_of_mem _ (List.mem_cons_self _ _))
      (strIncludes_of_mem_join _ _ (by simp))
  · exact ne_empty_of_strIncludes _ "👨‍⚕️ **ANÁLISE MÉDICOS** "
      (strIncludes_of_mem_join _ _ (by simp)) (by decide)

theorem chatJs_salesAnswer_contains (n : Nat) (context : JsCtx) :
    strIncludes (ChatJs.salesAnswer true n context) (Nat.repr n) = true
    ∧ ChatJs.salesAnswer true n context ≠ "" := by
  unfold ChatJs.salesAnswer
  rw [if_pos rfl]
  constructor
  · exact strIncludes_join_of_mem_of_includes _ _ _
      (List.mem_cons_of_mem _ (List.mem_cons_self _ _))
      (strIncludes_of_mem_join _ _ (by simp))
  · exact ne_empty_of_strIncludes _ "💰 **ANÁLISE DE VENDAS** "
      (strIncludes_of_mem_join _ _ (by simp)) (by decide)

theorem chatJs_generalAnswer_contains (question : String) (n : Nat) (context : JsCtx) :
    strIncludes (ChatJs.generalAnswer question true n context) (Nat.repr n) = true
    ∧ ChatJs.generalAnswer question true n context ≠ "" := by
  unfold ChatJs.generalAnswer
  rw [if_pos rfl]
  constructor
  · exact strIncludes_join_of_mem_of_includes _ _ _
      (List.mem_cons_of_mem _ (List.mem_cons_self _ _))
      (strIncludes_of_mem_join _ _ (by simp))
  · exact ne_empty_of_strIncludes _ "🤖 **ASSISTENTE BI ATIVO** "
      (strIncludes_of_mem_join _ _ (by simp)) (by decide)

theorem chatJs_fallback_contains (question : String) (rows : List JsRow) (hne : rows ≠ []) :
    strIncludes (ChatJs.generateIntelligentFallback question (some rows))
      (Nat.repr rows.length) = true
    ∧ ChatJs.generateIntelligentFallback question (some rows) ≠ "" := by
  have hhd : ctxHasData (some rows) = true := by
    cases rows with
    | nil => exact absurd rfl hne
    | cons r rs => simp [ctxHasData]
  have hrc : ctxRowCount (some rows) = rows.length := rfl
  unfold ChatJs.generateIntelligentFallback
  simp only [hhd, if_true, hrc]
  by_cases h₁ : (ChatJs.detectType (jsToLowerCase question)).1 = "totals"
  · simp only [h₁, if_pos rfl]
    exact chatJs_totalsAnswer_contains rows.length _ (some rows)
  · simp only [if_neg h₁]
    by_cases h₂ : (ChatJs.detectType (jsToLowerCase question)).1 = "doctors"
    · simp only [h₂, if_pos rfl]
      exact chatJs_doctorsAnswer_contains rows.length _ (some rows)
    · simp only [if_neg h₂]
      by_cases h₃ : (ChatJs.detectType (jsToLowerCase question)).1 = "sales"
      · simp only [h₃, if_pos rfl]
        exact chatJs_salesAnswer_contains rows.length (some rows)
      · simp only [if_neg h₃]
        exact chatJs_generalAnswer_contains question rows.length (some rows)

theorem chatJsonp_fallback_contains (question : String) (context : JsCtx) (n : Nat) :
    strIncludes (ChatJsonp.generateSmartFallback question context true n) (Nat.repr n) = true
    ∧ ChatJsonp.generateSmartFallback question context true n ≠ "" := by
  unfold ChatJsonp.generateSmartFallback
  simp only [Bool.or_eq_true]
  by_cases h₁ : (strIncludes (jsToLowerCase question) "total" = true
      ∨ strIncludes (jsToLowerCase question) "soma" = true)
      ∨ strIncludes (jsToLowerCase question) "sum" = true
  · rw [if_pos h₁]
    unfold ChatJsonp.totalsAnswer
    rw [if_pos rfl]
    constructor
    · exact strIncludes_join_of_mem_of_includes _ _ _
        (List.mem_cons_of_mem _ (List.mem_cons_self _ _))
        (strIncludes_of_mem_join _ _ (by simp))
    · exact ne_empty_of_strIncludes _ "📊 **ANÁLISE DE TOTAIS via JSONP**\n    \n✅ **Status:** "
        (strIncludes_of_mem_join _ _ (by simp)) (by decide)
  · rw [if_neg h₁]
    by_cases h₂ : (strIncludes (jsToLowerCase question) "médico" = true
        ∨ strIncludes (jsToLowerCase question) "doctor" = true)
        ∨ strIncludes (jsToLowerCase question) "quantidade" = true
    · rw [if_pos h₂]
      unfold ChatJsonp.doctorsAnswer
      constructor
      · exact strIncludes_of_mem_join _ _ (by simp)
      · exact ne_empty_of_strIncludes _
          "👨‍⚕️ **ANÁLISE MÉDICOS via JSONP**\n    \n✅ **Registros encontrados:** "
          (strIncludes_of_mem_join _ _ (by simp)) (by decide)
    · rw [if_neg h₂]
      by_cases h₃ : (strIncludes (jsToLowerCase question) "vendas" = true
          ∨ strIncludes (jsToLowerCase question) "receita" = true)
          ∨ strIncludes (jsToLowerCase question) "sales" = true
      · rw [if_pos h₃]
        unfold ChatJsonp.salesAnswer
        constructor
        · exact strIncludes_of_mem_join _ _ (by simp)
        · exact ne_empty_of_strIncludes _
            "💰 **ANÁLISE DE VENDAS via JSONP**\n    \n📈 **Transações:** "
            (strIncludes_of_mem_join _ _ (by simp)) (by decide)
      · rw [if_neg h₃]
        unfold ChatJsonp.generalAnswer
        constructor
        · exact strIncludes_join_of_mem_of_includes _ _ _ (by simp [List.mem_cons])
            (strIncludes_of_mem_join (l := [Nat.repr n, " registros carregados"]) _ (by simp))
        · exact ne_empty_of_strIncludes _
            "🔄 **JSONP CONECTADO COM SUCESSO!**\n  \n✅ **Comunicação:** Ativa via JSONP (bypass CORS)\n🔍 **Pergunta:** \""
            (strIncludes_of_mem_join _ _ (by simp)) (by decide)

theorem chatIframe_fallback_contains (question : String) (context : JsCtx) (n : Nat) :
    strIncludes (ChatIframe.generateIframeFallback question context true n) (Nat.repr n) = true
    ∧ ChatIframe.generateIframeFallback question context true n ≠ "" := by
  unfold ChatIframe.generateIframeFallback
  simp only [Bool.or_eq_true]
  by_cases h₁ : strIncludes (jsToLowerCase question) "quantidade" = true
      ∨ strIncludes (jsToLowerCase question) "médico" = true
  · rw [if_pos h₁]
    unfold ChatIframe.doctorsAnswer
    constructor
    · exact strIncludes_join_of_mem_of_includes _ _ _ (by simp [List.mem_cons])
        (strIncludes_of_mem_join (l := [Nat.repr n, " registros médicos encontrados"]) _ (by simp))
    · exact ne_empty_of_strIncludes _
        "👨‍⚕️ **ANÁLISE MÉDICOS via Iframe**\n\n🖼️ **Método:** Iframe + PostMessage ativo\n📊 **Dados:** "
        (strIncludes_of_mem_join _ _ (by simp)) (by decide)
  · rw [if_neg h₁]
    unfold ChatIframe.generalAnswer
    constructor
    · exact strIncludes_join_of_mem_of_includes _ _ _ (by simp [List.mem_cons])
        (strIncludes_of_mem_join (l := [Nat.repr n, " registros carregados"]) _ (by simp))
    · exact ne_empty_of_strIncludes _
        "🖼️ **IFRAME BRIDGE ATIVO!**\n\n✅ **Comunicação:** PostMessage funcionando\n🔍 **Pergunta:** \""
        (strIncludes_of_mem_join _ _ (by simp)) (by decide)

theorem chatSse_fallback_contains (question : String) (rows : List JsRow) (hne : rows ≠ []) :
    strIncludes (ChatSse.generateFallbackResponse question (some rows))
      (Nat.repr rows.length) = true
    ∧ ChatSse.generateFallbackResponse question (some rows) ≠ "" := by
  have hhd : ctxHasData (some rows) = true := by
    cases rows with
    | nil => exact absurd rfl hne
    | cons r rs => simp [ctxHasData]
  have hrc : ctxRowCount (some rows) = rows.length := rfl
  unfold ChatSse.generateFallbackResponse
  simp only [hhd, if_true, hrc, Bool.or_eq_true]
  by_cases h₁ : strIncludes (jsToLowerCase question) "total" = true
      ∨ strIncludes (jsToLowerCase question) "soma" = true
  · rw [if_pos h₁]
    constructor
    · exact strIncludes_join_of_mem_of_includes _ _ _ (by simp [List.mem_cons])
        (strIncludes_of_mem_join
          (l := ["Processando ", Nat.repr rows.length, " registros"]) _ (by simp))
    · exact ne_empty_of_strIncludes _ "📊 ANÁLISE DE TOTAIS (via SSE): "
        (strIncludes_of_mem_join _ _ (by simp)) (by decide)
  · rw [if_neg h₁]
    by_cases h₂ : strIncludes (jsToLowerCase question) "quantidade" = true
        ∨ strIncludes (jsToLowerCase question) "qtd" = true
    · rw [if_pos h₂]
      constructor
      · exact strIncludes_join_of_mem_of_includes _ _ _ (by simp [List.mem_cons])
          (strIncludes_of_mem_join
            (l := [Nat.repr rows.length, " registros encontrados"]) _ (by simp))
      · exact ne_empty_of_strIncludes _ "🔢 ANÁLISE DE QUANTIDADES (via SSE): "
          (strIncludes_of_mem_join _ _ (by simp)) (by decide)
    · rw [if_neg h₂]
      constructor
      · exact strIncludes_join_of_mem_of_includes _ _ _ (by simp [List.mem_cons])
          (strIncludes_of_mem_join
            (l := [Nat.repr rows.length, " registros"]) _ (by simp))
      · exact ne_empty_of_strIncludes _ "✅ Conectado via SSE! Pergunta: \""
          (strIncludes_of_mem_join _ _ (by simp)) (by decide)

theorem chatPixel_fallback_contains (question : String) (rows : List JsRow) (hne : rows ≠ []) :
    strIncludes (ChatPixel.generateFallbackResponse question (some rows))
      (Nat.repr rows.length) = true
    ∧ ChatPixel.generateFallbackResponse question (some rows) ≠ "" := by
  have hhd : ctxHasData (some rows) = true := by
    cases rows with
    | nil => exact absurd rfl hne
    | cons r rs => simp [ctxHasData]
  have hrc : ctxRowCount (some rows) = rows.length := rfl
  unfold ChatPixel.generateFallbackResponse
  simp only [hhd, if_true, hrc, Bool.or_eq_true]
  by_cases h₁ : strIncludes (jsToLowerCase question) "médico" = true
      ∨ strIncludes (jsToLowerCase question) "doctor" = true
  · rw [if_pos h₁]
    constructor
    · exact strIncludes_join_of_mem_of_includes _ _ _ (by simp [List.mem_cons])
        (strIncludes_of_mem_join
          (l := ["Encontrados ", Nat.repr rows.length, " registros médicos"]) _ (by simp))
    · exact ne_empty_of_strIncludes _ "👨‍⚕️ ANÁLISE MÉDICOS (via Pixel): "
        (strIncludes_of_mem_join _ _ (by simp)) (by decide)
  · rw [if_neg h₁]
    by_cases h₂ : strIncludes (jsToLowerCase question) "vendas" = true
        ∨ strIncludes (jsToLowerCase question) "receita" = true
    · rw [if_pos h₂]
      constructor
      · exact strIncludes_join_of_mem_of_includes _ _ _ (by simp [List.mem_cons])
          (strIncludes_of_mem_join
            (l := ["Processando ", Nat.repr rows.length, " transações"]) _ (by simp))
      · exact ne_empty_of_strIncludes _ "💰 ANÁLISE VENDAS (via Pixel): "
          (strIncludes_of_mem_join _ _ (by simp)) (by decide)
    · rw [if_neg h₂]
      constructor
      · exact strIncludes_join_of_mem_of_includes _ _ _ (by simp [List.mem_cons])
          (strIncludes_of_mem_join
            (l := [Nat.repr rows.length, " registros"]) _ (by simp))
      · exact ne_empty_of_strIncludes _ "🖼️ Conectado via Pixel Tracking! Pergunta: \""
          (strIncludes_of_mem_join _ _ (by simp)) (by decide)

/-- C5: for every chat backend-proxy endpoint, when the Copilot exchange
fails at any backend-level step (missing `COPILOT_SECRET`, conversation
or post failure, poll exhaustion — all surfacing as a `none` Copilot
outcome), the endpoint still responds with HTTP status 200, a non-empty
rule-based fallback answer containing the row count taken from the
context, and a `method` field naming the fallback path.  For the pixel
endpoint the HTTP response is the status-200 pixel and the answer/method
travel in the stored payload.  Hypotheses: the request is not an OPTIONS
preflight and carries a non-empty question (`chat.js` raises its
`ERROR_RECOVERY` path otherwise, still with status 200), and the context
has rows (`hasData`), with `n` the `rowCount` parameter the JSONP/iframe
transports forward. -/
theorem claim_C5_proxies_fallback_to_rule_based_answer
    (httpMethod : String) (questionParam : Option String) (r : JsRow) (rs : List JsRow)
    (n : Nat) (elapsed : Nat)
    (hopt : httpMethod ≠ "OPTIONS") (hq : ChatJs.chatQuestion questionParam ≠ "") :
    ((ChatJs.chatHandler httpMethod questionParam (some (r :: rs)) none elapsed).statusCode = 200
     ∧ (ChatJs.chatHandler httpMethod questionParam (some (r :: rs)) none elapsed).method
        = "FALLBACK"
     ∧ (ChatJs.chatHandler httpMethod questionParam (some (r :: rs)) none elapsed).answer ≠ ""
     ∧ strIncludes (ChatJs.chatHandler httpMethod questionParam (some (r :: rs)) none elapsed).answer
        (Nat.repr (r :: rs).length) = true)
    ∧ ((ChatJsonp.handler questionParam (some (r :: rs)) true n none).statusCode = 200
     ∧ (ChatJsonp.handler questionParam (some (r :: rs)) true n none).method = "JSONP_FALLBACK"
     ∧ (ChatJsonp.handler questionParam (some (r :: rs)) true n none).answer ≠ ""
     ∧ strIncludes (ChatJsonp.handler questionParam (some (r :: rs)) true n none).answer
        (Nat.repr n) = true)
    ∧ ((ChatIframe.handler questionParam (some (r :: rs)) true n none).statusCode = 200
     ∧ (ChatIframe.handler questionParam (some (r :: rs)) true n none).method = "IFRAME_FALLBACK"
     ∧ (ChatIframe.handler questionParam (some (r :: rs)) true n none).answer ≠ ""
     ∧ strIncludes (ChatIframe.handler questionParam (some (r :: rs)) true n none).answer
        (Nat.repr n) = true)
    ∧ ((ChatSse.handler questionParam (some (r :: rs)) none).statusCode = 200
     ∧ (ChatSse.handler questionParam (some (r :: rs)) none).method = "SSE_FALLBACK"
     ∧ (ChatSse.handler questionParam (some (r :: rs)) none).answer ≠ ""
     ∧ strIncludes (ChatSse.handler questionParam (some (r :: rs)) none).answer
        (Nat.repr (r :: rs).length) = true)
    ∧ ((ChatPixel.handler questionParam (some (r :: rs)) none).1 = 200
     ∧ (ChatPixel.handler questionParam (some (r :: rs)) none).2.method = "PIXEL_FALLBACK"
     ∧ (ChatPixel.handler questionParam (some (r :: rs)) none).2.answer ≠ ""
     ∧ strIncludes (ChatPixel.handler questionParam (some (r :: rs)) none).2.answer
        (Nat.repr (r :: rs).length) = true) := by
  have hchat : ChatJs.chatHandler httpMethod questionParam (some (r :: rs)) none elapsed
      = { statusCode := 200
          answer := ChatJs.generateIntelligentFallback (ChatJs.chatQuestion questionParam)
            (some (r :: rs))
          method := "FALLBACK"
          executionTime := elapsed
          error := false } := by
    unfold ChatJs.chatHandler
    rw [if_neg hopt, if_neg hq]
  have hcontains := chatJs_fallback_contains (ChatJs.chatQuestion questionParam) (r :: rs)
    (by simp)
  have hjsonp := chatJsonp_fallback_contains (questionParam.getD "Pergunta não informada")
    (some (r :: rs)) n
  have hiframe := chatIframe_fallback_contains (questionParam.getD "Pergunta não informada")
    (some (r :: rs)) n
  have hsse := chatSse_fallback_contains (questionParam.getD "Pergunta não informada")
    (r :: rs) (by simp)
  have hpixel := chatPixel_fallback_contains (questionParam.getD "Pergunta não informada")
    (r :: rs) (by simp)
  refine ⟨⟨?_, ?_, ?_, ?_⟩, ⟨rfl, rfl, hjsonp.2, hjsonp.1⟩, ⟨rfl, rfl, hiframe.2, hiframe.1⟩,
    ⟨rfl, rfl, hsse.2, hsse.1⟩, ⟨rfl, rfl, hpixel.2, hpixel.1⟩⟩
  · rw [hchat]
  · rw [hchat]
  · rw [hchat]; exact hcontains.2
  · rw [hchat]; exact hcontains.1

set_option maxRecDepth 8000 in
/-- Witness for C5 at a concrete request: a missing-credential request
with question `total de vendas` and a one-row context. -/
theorem claim_C5_witness :
    ((ChatJs.chatHandler "GET" (some "total de vendas") (some [[("Produto", "A")]]) none 0).method
        = "FALLBACK")
    ∧ strIncludes
        (ChatPixel.handler (some "total de vendas") (some [[("Produto", "A")]]) none).2.answer
        (Nat.repr 1) = true :=
  ⟨((claim_C5_proxies_fallback_to_rule_based_answer "GET" (some "total de vendas")
      [("Produto", "A")] [] 1 0 (by decide) (by decide)).1).2.1,
   (((claim_C5_proxies_fallback_to_rule_based_answer "GET" (some "total de vendas")
      [("Produto", "A")] [] 1 0 (by decide) (by decide)).2).2.2.2).2.2.2⟩

/-! ## C8 — bucket order of the rule-based generators -/

theorem any_keyword_triple (q t₁ t₂ t₃ : String) :
    ([t₁, t₂, t₃].any fun t => strIncludes q t)
      = ((strIncludes q t₁ || strIncludes q t₂) || strIncludes q t₃) := by
  simp [List.any_cons, List.any_nil, Bool.or_assoc]

theorem any_keyword_pair (q t₁ t₂ : String) :
    ([t₁, t₂].any fun t => strIncludes q t)
      = (strIncludes q t₁ || strIncludes q t₂) := by
  simp [List.any_cons, List.any_nil]

/-- C8 (counterexample): the claim fails for the pixel proxy.  On the
question `total vendas` — which contains the totals keyword `total`, so
the claimed order totals → quantities → sales → practitioner → averages
→ comparisons selects the totals bucket — `chat-pixel.js` has no totals
bucket at all and its sales branch answers, because its own order is
practitioner → sales → generic. -/
theorem claim_C8_counterexample :
    ChatPixel.matchedBucket "total vendas" = "sales"
    ∧ claimedFirstMatch "total vendas" = "totals"
    ∧ ChatPixel.generateFallbackResponse "total vendas" (some [[("Produto", "A")]])
        = "💰 ANÁLISE VENDAS (via Pixel): Processando 1 transações"
    ∧ ("sales" : String) ≠ "totals" := by
  refine ⟨by decide, by decide, by decide, by decide⟩

/-- C8 (amended): only the main `chat.js` generator matches the
lower-cased question against ordered keyword buckets in the claimed
fixed order totals/sums → quantities → sales/revenue → practitioner →
averages → comparisons (first match wins, generic default).  Each other
proxy's generator is first-match-wins with a generic default over its
own, different bucket order: `chat-jsonp.js` totals →
practitioner-with-`quantidade` → sales; `chat-iframe.js` a single
practitioner/quantities bucket; `chat-sse.js` totals → quantities;
`chat-pixel.js` practitioner → sales. -/
theorem claim_C8_amended_bucket_orders (question : String) :
    ((ChatJs.detectType (jsToLowerCase question)).1 = claimedFirstMatch question)
    ∧ (ChatJsonp.matchedBucket question = firstMatchIn question
        [("totals", ["total", "soma", "sum"]),
         ("doctors", ["médico", "doctor", "quantidade"]),
         ("sales", ["vendas", "receita", "sales"])])
    ∧ (ChatIframe.matchedBucket question = firstMatchIn question
        [("doctors", ["quantidade", "médico"])])
    ∧ (ChatSse.matchedBucket question = firstMatchIn question
        [("totals", ["total", "soma"]), ("quantities", ["quantidade", "qtd"])])
    ∧ (ChatPixel.matchedBucket question = firstMatchIn question
        [("doctors", ["médico", "doctor"]), ("sales", ["vendas", "receita"])]) := by
  refine ⟨?_, ?_, ?_, ?_, ?_⟩
  · unfold ChatJs.detectType claimedFirstMatch
    cases hf : ChatJs.questionTypes.find? (fun b =>
        b.2.any (fun t => strIncludes (jsToLowerCase question) t)) <;> simp [hf]
  · unfold ChatJsonp.matchedBucket firstMatchIn
    by_cases h₁ : ((strIncludes (jsToLowerCase question) "total"
        || strIncludes (jsToLowerCase question) "soma")
        || strIncludes (jsToLowerCase question) "sum") = true
    · rw [if_pos h₁, List.find?_cons_of_pos _ (by rw [any_keyword_triple]; exact h₁)]
    · rw [if_neg h₁, List.find?_cons_of_neg _
        (by rw [any_keyword_triple]; exact h₁)]
      by_cases h₂ : ((strIncludes (jsToLowerCase question) "médico"
          || strIncludes (jsToLowerCase question) "doctor")
          || strIncludes (jsToLowerCase question) "quantidade") = true
      · rw [if_pos h₂, List.find?_cons_of_pos _ (by rw [any_keyword_triple]; exact h₂)]
      · rw [if_neg h₂, List.find?_cons_of_neg _
          (by rw [any_keyword_triple]; exact h₂)]
        by_cases h₃ : ((strIncludes (jsToLowerCase question) "vendas"
            || strIncludes (jsToLowerCase question) "receita")
            || strIncludes (jsToLowerCase question) "sales") = true
        · rw [if_pos h₃, List.find?_cons_of_pos _ (by rw [any_keyword_triple]; exact h₃)]
        · rw [if_neg h₃, List.find?_cons_of_neg _
            (by rw [any_keyword_triple]; exact h₃)]
          rfl
  · unfold ChatIframe.matchedBucket firstMatchIn
    by_cases h₁ : (strIncludes (jsToLowerCase question) "quantidade"
        || strIncludes (jsToLowerCase question) "médico") = true
    · rw [if_pos h₁, List.find?_cons_of_pos _ (by rw [any_keyword_pair]; exact h₁)]
    · rw [if_neg h₁, List.find?_cons_of_neg _ (by rw [any_keyword_pair]; exact h₁)]
      rfl
  · unfold ChatSse.matchedBucket firstMatchIn
    by_cases h₁ : (strIncludes (jsToLowerCase question) "total"
        || strIncludes (jsToLowerCase question) "soma") = true
    · rw [if_pos h₁, List.find?_cons_of_pos _ (by rw [any_keyword_pair]; exact h₁)]
    · rw [if_neg h₁, List.find?_cons_of_neg _ (by rw [any_keyword_pair]; exact h₁)]
      by_cases h₂ : (strIncludes (jsToLowerCase question) "quantidade"
          || strIncludes (jsToLowerCase question) "qtd") = true
      · rw [if_pos h₂, List.find?_cons_of_pos _ (by rw [any_keyword_pair]; exact h₂)]
      · rw [if_neg h₂, List.find?_cons_of_neg _ (by rw [any_keyword_pair]; exact h₂)]
        rfl
  · unfold ChatPixel.matchedBucket firstMatchIn
    by_cases h₁ : (strIncludes (jsToLowerCase question) "médico"
        || strIncludes (jsToLowerCase question) "doctor") = true
    · rw [if_pos h₁, List.find?_cons_of_pos _ (by rw [any_keyword_pair]; exact h₁)]
    · rw [if_neg h₁, List.find?_cons_of_neg _ (by rw [any_keyword_pair]; exact h₁)]
      by_cases h₂ : (strIncludes (jsToLowerCase question) "vendas"
          || strIncludes (jsToLowerCase question) "receita") = true
      · rw [if_pos h₂, List.find?_cons_of_pos _ (by rw [any_keyword_pair]; exact h₂)]
      · rw [if_neg h₂, List.find?_cons_of_neg _ (by rw [any_keyword_pair]; exact h₂)]
        rfl

/-! ## C6 — question truncation in `chat.js` -/

set_option maxRecDepth 8000 in
/-- C6 (counterexample): on a question of 505 characters (`"total"`
repeated 101 times, exceeding the 500-character truncation limit) with a
one-row context, the rule-based fallback path of `chat.js` produces an
answer that does not contain the original full question text: the claim
that the fallback answer "still reflects the original full question
text" is false. -/
theorem claim_C6_counterexample :
    (500 < (String.join (List.replicate 101 "total")).length)
    ∧ strIncludes
        ((ChatJs.chatHandler "GET" (some (String.join (List.replicate 101 "total")))
          (some [[("Produto", "A")]]) none 0).answer)
        (String.join (List.replicate 101 "total")) = false := by
  constructor
  · decide
  · decide

set_option maxRecDepth 8000 in
/-- C6 (amended): `chat.js` truncates the question to its first 500
characters at extraction, before both paths: the message forwarded to
the conversational backend embeds (and the rule-based fallback sees)
only the truncated question, not the original full text. -/
theorem claim_C6_amended_truncated_question (q : String) (context : JsCtx)
    (elapsed : Nat) (hlen : 500 < q.length) :
    (ChatJs.chatQuestion (some q) = jsSubstring q 500)
    ∧ (strIncludes (ChatJs.prepareOptimizedMessage (ChatJs.chatQuestion (some q)) context)
        (jsSubstring q 500) = true)
    ∧ ((ChatJs.chatHandler "GET" (some q) context none elapsed).answer
        = ChatJs.generateIntelligentFallback (jsSubstring q 500) context) := by
  have hne : ChatJs.chatQuestion (some q) ≠ "" := by
    intro hc
    have h0 : (q.data.take 500).length = 0 := congrArg String.length hc
    rw [List.length_take] at h0
    have h1 : 500 < q.data.length := hlen
    omega
  refine ⟨rfl, ?_, ?_⟩
  · unfold ChatJs.prepareOptimizedMessage
    by_cases hd : ctxHasData context = false
    · rw [if_pos hd]
      exact strIncludes_of_mem_join _ _ (by simp [ChatJs.chatQuestion])
    · rw [if_neg hd]
      exact strIncludes_of_mem_join _ _ (by simp [ChatJs.chatQuestion])
  · unfold ChatJs.chatHandler
    rw [if_neg (by decide : ¬("GET" = "OPTIONS")), if_neg hne]
    rfl

set_option maxRecDepth 8000 in
/-- Witness for C6 at the concrete 505-character question. -/
theorem claim_C6_witness :
    (ChatJs.chatHandler "GET" (some (String.join (List.replicate 101 "total")))
        (some [[("Produto", "A")]]) none 0).answer
      = ChatJs.generateIntelligentFallback
          (jsSubstring (String.join (List.replicate 101 "total")) 500)
          (some [[("Produto", "A")]]) :=
  (claim_C6_amended_truncated_question (String.join (List.replicate 101 "total"))
    (some [[("Produto", "A")]]) 0 (by decide)).2.2

/-- Witness for C3 at a concrete long-running request (a request whose
Copilot race is still pending when the 8.5 s budget elapses, i.e. a
`none` outcome and an elapsed time beyond 8500 ms). -/
theorem claim_C3_witness :
    (ChatJs.chatHandler "GET" (some "total") (some [[("Produto", "A")]]) none 9000).method
      ≠ "FAST_FALLBACK" :=
  (claim_C3_fast_fallback_never_returned "GET" (some "total") (some [[("Produto", "A")]])
    none 9000 9000).1
